import Mathlib

/-!
Shallow embedding of the Live Event Ingestion & Reply Dispatch Engine
(`ai_reply_manager.py` and `tiktok_monitor.py`), together with theorems
settling the specification claims about it.

Conventions of the embedding:
* Python strings are Lean `String`s; Python string truthiness (`if s:`)
  is `s ≠ ""`.
* Wall-clock timestamps are abstract `Nat`s (their value is never inspected).
* The bounded `deque(maxlen=5000)` is a `List (Nat × String)` kept
  oldest-first; `append` pushes on the right and eviction drops on the left.
* Code that may raise a Python exception is modelled in `Except String`,
  the `.error` constructor standing for a raised exception carrying its
  message; a `try/except` block is a `match` on that value.
* Network I/O (the HTTP POST plus JSON decode, or the OpenAI SDK call) is an
  oracle argument: an `Except String JVal` (resp. `Except String (Option String)`)
  supplied by the environment, covering transport errors, HTTP error statuses
  and undecodable bodies as `.error`.
-/

namespace CosVoice

/-- JSON-like values as decoded by `r.json()` in the Python backends. -/
inductive JVal where
  | null : JVal
  | bool : Bool → JVal
  | str : String → JVal
  | num : Int → JVal
  | arr : List JVal → JVal
  | obj : List (String × JVal) → JVal

/-- Python truthiness of a decoded JSON value. -/
def jtruthy : JVal → Bool
  | .null => false
  | .bool b => b
  | .str s => s ≠ ""
  | .num n => n ≠ 0
  | .arr xs => ¬xs.isEmpty
  | .obj kvs => ¬kvs.isEmpty

/-- `d.get(k, default)`: raises (`.error`) when the receiver is not a dict. -/
def jgetD (v : JVal) (k : String) (dflt : JVal) : Except String JVal :=
  match v with
  | .obj kvs =>
    match kvs.lookup k with
    | some x => .ok x
    | none => .ok dflt
  | _ => .error "AttributeError: get on non-dict"

/-- `d.get(k)`: default `None`. -/
def jget (v : JVal) (k : String) : Except String JVal :=
  jgetD v k .null

/-- `d[k]`: raises on a non-dict receiver or a missing key. -/
def jindex (v : JVal) (k : String) : Except String JVal :=
  match v with
  | .obj kvs =>
    match kvs.lookup k with
    | some x => .ok x
    | none => .error "KeyError"
  | _ => .error "TypeError: not subscriptable"

/-- `v == "lit"` between a decoded JSON value and a string literal. -/
def jisStr (v : JVal) (s : String) : Bool :=
  match v with
  | .str t => t = s
  | _ => false

mutual
/-- A rendering of a JSON value, standing for Python `repr` in the
`f"... {data!r}"` warning strings (the claims never inspect its exact text). -/
def jrepr : JVal → String
  | .null => "None"
  | .bool b => if b then "True" else "False"
  | .str s => "\x27" ++ s ++ "\x27"
  | .num n => toString n
  | .arr xs => "[" ++ jreprList xs ++ "]"
  | .obj kvs => "\x7b" ++ jreprObj kvs ++ "\x7d"

def jreprList : List JVal → String
  | [] => ""
  | [x] => jrepr x
  | x :: xs => jrepr x ++ ", " ++ jreprList xs

def jreprObj : List (String × JVal) → String
  | [] => ""
  | [(k, x)] => "\x27" ++ k ++ "\x27: " ++ jrepr x
  | (k, x) :: xs => "\x27" ++ k ++ "\x27: " ++ jrepr x ++ ", " ++ jreprObj xs
end

/-!
Python string primitives, restated as structural recursion over the
character list so that every definition evaluates inside the kernel.
-/

/-- Substring test on character lists (Python `pat in s` for strings). -/
def charsContain (pat : List Char) : List Char → Bool
  | [] => pat.isEmpty
  | c :: rest => pat.isPrefixOf (c :: rest) || charsContain pat rest

/-- Python `pat in s` on strings. -/
def strContains (s pat : String) : Bool :=
  charsContain pat.data s.data

/-- Python `s.lower()`. -/
def strToLower (s : String) : String :=
  ⟨s.data.map Char.toLower⟩

/-- Whitespace-stripping on a character list. -/
def trimChars (l : List Char) : List Char :=
  ((l.dropWhile Char.isWhitespace).reverse.dropWhile Char.isWhitespace).reverse

/-- Python `s.strip()`. -/
def strTrim (s : String) : String :=
  ⟨trimChars s.data⟩

/-- Python `s.startswith(pat)`. -/
def strStartsWith (s pat : String) : Bool :=
  pat.data.isPrefixOf s.data

/-- Split a character list at its first `':'`, Python `s.split(":", 1)`:
`none` when no colon occurs, otherwise the parts before and after it. -/
def splitFirstColon : List Char → Option (List Char × List Char)
  | [] => none
  | c :: rest =>
    if c = ':' then some ([], rest)
    else
      match splitFirstColon rest with
      | none => none
      | some (a, b) => some (c :: a, b)

/-- Fuel-indexed replacement loop: left-to-right, non-overlapping, as Python
`s.replace(pat, rep)` for a nonempty `pat`. One unit of fuel is spent per
consumed input character, so `l.length` fuel always suffices. -/
def replaceFuel (pat rep : List Char) : Nat → List Char → List Char
  | _, [] => []
  | 0, l => l
  | fuel + 1, c :: rest =>
    if pat.isPrefixOf (c :: rest) then
      rep ++ replaceFuel pat rep fuel ((c :: rest).drop pat.length)
    else c :: replaceFuel pat rep fuel rest

/-- Python `s.replace(pat, rep)`. (The `pat = ""` case never occurs in the
embedded code; it is passed through unchanged here.) -/
def strReplace (s pat rep : String) : String :=
  if pat = "" then s else ⟨replaceFuel pat.data rep.data s.data.length s.data⟩

/-- `AIMode = Literal["openai", "dify", "coze", "echo"]`. -/
inductive AIMode where
  | openai | dify | coze | echo
deriving DecidableEq

/-- `OpenAIConfig` dataclass. -/
structure OpenAIConfig where
  base_url : String := ""
  api_key : String := ""
  model : String := ""

/-- `DifyConfig` dataclass (the `inputs` dict is carried opaquely). -/
structure DifyConfig where
  endpoint : String := ""
  api_key : String := ""
  user : String := "tiktok_live_user"
  inputs : List (String × JVal) := []
  response_mode : String := "blocking"

/-- `CozeConfig` dataclass. -/
structure CozeConfig where
  endpoint : String := "https://api.coze.com/open_api/v2/chat"
  api_key : String := ""
  bot_id : String := ""
  user_id : String := "tiktok_live_user"
  stream : Bool := false

/-- The mutable state of `AIReplyManager`. The comment queue is oldest-first;
`worker_active` is the DispatchFlag. -/
structure EngineState where
  mode : AIMode
  openai_cfg : OpenAIConfig
  dify_cfg : DifyConfig
  coze_cfg : CozeConfig
  enabled : Bool
  keyword_mode : Bool
  keywords : List String
  max_batch : Nat
  custom_system_prompt : String
  comment_q : List (Nat × String)
  worker_active : Bool

/-- `AIReplyManager.__init__`. -/
def initManager : EngineState where
  mode := .echo
  openai_cfg := {}
  dify_cfg := {}
  coze_cfg := {}
  enabled := false
  keyword_mode := false
  keywords := []
  max_batch := 1
  custom_system_prompt := ""
  comment_q := []
  worker_active := false

/-- Capacity of the comment deque (`deque(maxlen=5000)`). -/
def queueMaxlen : Nat := 5000

/-- Append on the right of a `deque(maxlen=5000)`: when the result would
exceed the capacity, entries are evicted from the left. -/
def pushBounded (q : List (Nat × String)) (x : Nat × String) : List (Nat × String) :=
  if queueMaxlen < (q ++ [x]).length then (q ++ [x]).drop ((q ++ [x]).length - queueMaxlen)
  else q ++ [x]

/-- `AIReplyManager.add_comment`: drop empty lines and system messages
(prefix `"["`), otherwise append `(ts, line)` to the bounded queue. -/
def add_comment (s : EngineState) (ts : Nat) (comment_line : String) : EngineState :=
  if comment_line = "" || strStartsWith comment_line "[" then s
  else { s with comment_q := pushBounded s.comment_q (ts, comment_line) }

/-- `AIReplyManager.set_keyword_mode`: keywords are stripped, blank ones
dropped. -/
def set_keyword_mode (s : EngineState) (enabled : Bool)
    (keywords : Option (List String)) : EngineState :=
  let s1 := { s with keyword_mode := enabled }
  match keywords with
  | none => s1
  | some ks =>
    { s1 with keywords := ks.filterMap fun k => if strTrim k = "" then none else some (strTrim k) }

/-- `AIReplyManager.set_max_batch`: coerced to at least 1. -/
def set_max_batch (s : EngineState) (n : Int) : EngineState :=
  { s with max_batch := (max 1 n).toNat }

/-- `AIReplyManager._accept_line`: pass-through without keyword mode, else a
case-insensitive substring test against any keyword. -/
def accept_line (s : EngineState) (line : String) : Bool :=
  if s.keyword_mode = false then true
  else s.keywords.any fun k => strContains (strToLower line) (strToLower k)

/-- The drain loop of `cycle()`, acting on the reversed queue (newest first,
matching `deque.pop()` popping on the right): while the queue is nonempty and
fewer than `maxB` items are collected, pop one entry and keep it when the
filter accepts it. Returns the collected lines (in collection order) and the
un-popped remainder of the reversed queue. -/
def drainRev (accept : String → Bool) (maxB : Nat) :
    List (Nat × String) → List String → List String × List (Nat × String)
  | [], items => (items, [])
  | (ts, line) :: rest, items =>
    if items.length < maxB then
      drainRev accept maxB rest (if accept line then items ++ [line] else items)
    else (items, (ts, line) :: rest)

/-- `AIReplyManager.cycle`: no-op when disabled or when a worker is active;
otherwise drain under the filter; dispatch the first accepted line (if any),
setting the DispatchFlag. The second component is the line handed to
`_start_worker` (`none` = no worker spawned, no emission). -/
def cycleDrain (s : EngineState) : List String × List (Nat × String) :=
  drainRev (accept_line s) s.max_batch s.comment_q.reverse []

/-- Body of `cycle()` proper, built on `cycleDrain`. -/
def cycle (s : EngineState) : EngineState × Option String :=
  if s.enabled = false then (s, none)
  else if s.worker_active then (s, none)
  else
    match cycleDrain s with
    | ([], rest) => ({ s with comment_q := rest.reverse }, none)
    | (line :: _, rest) =>
      ({ s with comment_q := rest.reverse, worker_active := true }, some line)

/-- `AIReplyManager._extract_comment_text`: split once on the first `":"`. -/
def extract_comment_text (line : String) : String :=
  match splitFirstColon line.data with
  | none => strTrim line
  | some (_, after) => strTrim ⟨after⟩

/-- `AIReplyManager._build_prompts`: custom system prompt if set, else the
fixed default; the user prompt embeds the extracted text. -/
def build_prompts (s : EngineState) (text : String) : String × String :=
  let system_prompt :=
    if s.custom_system_prompt ≠ "" then s.custom_system_prompt
    else
      "你是一个直播间互动小助手。" ++
      "请始终使用与观众评论相同的语言进行简短、自然、友好的回复；" ++
      "不要翻译或切换到其它语言，除非观众明确要求你翻译或改用其它语言。" ++
      "Reply in the same language as the viewer comment. " ++
      "Do NOT translate or change language unless explicitly asked. " ++
      "Keep replies to 1 concise sentence."
  (system_prompt, "观众评论：" ++ text)

/-- The `try:` body of `_call_openai` after the config guard: the SDK call
(oracle `net`) yields a `message.content` that may be `None`; `.strip()` on
`None` raises. -/
def openai_try (net : Except String (Option String)) : Except String String := do
  let content ← net
  match content with
  | some c => pure (strTrim c)
  | none => Except.error "AttributeError: NoneType has no strip"

/-- `AIReplyManager._call_openai`. Missing config (or an absent SDK) degrades
to Echo over the text recovered from the user prompt; every exception from
the `try:` body is caught and turned into an error-tagged string. -/
def call_openai (cfg : OpenAIConfig) (sdkAvailable : Bool)
    (net : Except String (Option String))
    (_system_prompt user_prompt : String) : Except String String :=
  if ¬(cfg.base_url ≠ "" ∧ cfg.api_key ≠ "" ∧ cfg.model ≠ "" ∧ sdkAvailable) then
    .ok ("AI(Echo): " ++ strTrim (strReplace user_prompt "观众评论：" ""))
  else
    match openai_try net with
    | .ok r => .ok r
    | .error e => .ok ("[AI错误] OpenAI 调用失败: " ++ e)

/-- The `try:` body of `_call_dify_agent`: decode the response (oracle `net`),
read `answer` falling back to `data.answer` (Python `or` short-circuits on
truthiness), strip it when truthy (raising when it is not a string), else
produce the warning-tagged string. -/
def dify_try (net : Except String JVal) : Except String String := do
  let data ← net
  let a1 ← jget data "answer"
  let answer ←
    if jtruthy a1 then pure a1
    else do
      let d ← jgetD data "data" (.obj [])
      jget d "answer"
  if jtruthy answer then
    match answer with
    | .str a => pure (strTrim a)
    | _ => Except.error "AttributeError: no strip"
  else
    pure ("[AI警告] Dify 无可用 answer 字段: " ++ jrepr data)

/-- `AIReplyManager._call_dify_agent`. -/
def call_dify_agent (cfg : DifyConfig) (net : Except String JVal)
    (text : String) : Except String String :=
  if ¬(cfg.endpoint ≠ "" ∧ cfg.api_key ≠ "") then .ok ("AI(Echo): " ++ text)
  else
    match dify_try net with
    | .ok r => .ok r
    | .error e => .ok ("[AI错误] Dify 调用失败: " ++ e)

/-- Inner loop of the Coze parser over one message's `content` list: return
the first block whose `type` is `"text"` with a truthy `text` field
(`c["text"].strip()` raises when that field is not a string). -/
def cozeScanBlocks : List JVal → Except String (Option String)
  | [] => .ok none
  | c :: rest => do
    let ty ← jget c "type"
    if jisStr ty "text" then do
      let tx ← jget c "text"
      if jtruthy tx then do
        let v ← jindex c "text"
        match v with
        | .str t => pure (some (strTrim t))
        | _ => Except.error "AttributeError: no strip"
      else cozeScanBlocks rest
    else cozeScanBlocks rest

/-- Outer loop of the Coze parser over `reversed(messages)`: a list-valued
`content` is scanned block-wise, a string-valued nonblank `content` is
returned stripped, anything else falls through to the next message. -/
def cozeScanMessages : List JVal → Except String (Option String)
  | [] => .ok none
  | msg :: rest => do
    let content ← jget msg "content"
    match content with
    | .arr cs => do
      match ← cozeScanBlocks cs with
      | some t => pure (some t)
      | none => cozeScanMessages rest
    | .str t => if strTrim t ≠ "" then pure (some (strTrim t)) else cozeScanMessages rest
    | _ => cozeScanMessages rest

/-- The `try:` body of `_call_coze_agent`: decode the response, take
`data.messages` or (on falsiness) top-level `messages`, scan newest-first,
warn when nothing textual is found. -/
def coze_try (net : Except String JVal) : Except String String := do
  let data ← net
  let d ← jgetD data "data" (.obj [])
  let m1 ← jget d "messages"
  let messages ← if jtruthy m1 then pure m1 else jget data "messages"
  match messages with
  | .arr xs =>
    if xs.isEmpty then pure ("[AI警告] Coze 无可用文本: " ++ jrepr data)
    else do
      match ← cozeScanMessages xs.reverse with
      | some t => pure t
      | none => pure ("[AI警告] Coze 无可用文本: " ++ jrepr data)
  | _ => pure ("[AI警告] Coze 无可用文本: " ++ jrepr data)

/-- `AIReplyManager._call_coze_agent`. -/
def call_coze_agent (cfg : CozeConfig) (net : Except String JVal)
    (text : String) : Except String String :=
  if ¬(cfg.api_key ≠ "" ∧ cfg.bot_id ≠ "") then .ok ("AI(Echo): " ++ text)
  else
    match coze_try net with
    | .ok r => .ok r
    | .error e => .ok ("[AI错误] Coze 调用失败: " ++ e)

/-- Environment behaviour visible to one `_worker_run` invocation: the
network/SDK outcome for whichever backend runs, and whether the Qt signal
emissions themselves raise. -/
structure WorkerOracle where
  sdkAvailable : Bool
  netOpenai : Except String (Option String)
  netDify : Except String JVal
  netCoze : Except String JVal
  emitReplyExc : Option String
  emitErrorExc : Option String

/-- The backend-selection step of `_worker_run`: extract the comment text,
build the prompts, and route to the configured backend (Echo needs no call). -/
def generate_reply (s : EngineState) (o : WorkerOracle)
    (comment_line : String) : Except String String :=
  let text := extract_comment_text comment_line
  let prompts := build_prompts s text
  match s.mode with
  | .openai => call_openai s.openai_cfg o.sdkAvailable o.netOpenai prompts.1 prompts.2
  | .dify => call_dify_agent s.dify_cfg o.netDify text
  | .coze => call_coze_agent s.coze_cfg o.netCoze text
  | .echo => .ok ("AI(Echo): " ++ text)

/-- One emission on the Qt bridge. -/
inductive WEvent where
  | reply : String → WEvent
  | error : String → WEvent
deriving DecidableEq

/-- The `try:` body of `_worker_run`: generate, substitute the placeholder
for an empty reply, and emit it (the emission may itself raise, per the
oracle). Returns the emissions made and the exception, if one escaped. -/
def worker_try (s : EngineState) (o : WorkerOracle)
    (comment_line : String) : List WEvent × Option String :=
  match generate_reply s o comment_line with
  | .error e => ([], some e)
  | .ok reply =>
    let reply := if reply = "" then "[AI] （无回复）" else reply
    match o.emitReplyExc with
    | none => ([.reply reply], none)
    | some e => ([], some e)

/-- `AIReplyManager._worker_run`: the `try:` body, an `except:` clause that
emits the error (that emission may raise in turn, escaping the worker), and a
`finally:` clause clearing the DispatchFlag on every path. Returns the new
state, the emissions, and an exception that escaped the worker, if any. -/
def worker_run (s : EngineState) (o : WorkerOracle)
    (comment_line : String) : EngineState × List WEvent × Option String :=
  match worker_try s o comment_line with
  | (evs, none) => ({ s with worker_active := false }, evs, none)
  | (evs, some e) =>
    match o.emitErrorExc with
    | none => ({ s with worker_active := false },
               evs ++ [.error ("AI 回复失败: " ++ e)], none)
    | some e2 => ({ s with worker_active := false }, evs, some e2)

/-!
## System-level step relation

`cycle()` is invoked from a single caller context (the UI timer); dispatch
workers run on their own threads and interleave with it. `SysState` pairs
the engine state with the number of live dispatch workers; `Step` has one
constructor per atomic event visible at this granularity.
-/

/-- Engine state plus the number of currently running dispatch workers. -/
structure SysState where
  eng : EngineState
  active : Nat

/-- Atomic system events: a timer tick running `cycle()` (spawning a worker
when it dispatches), a running worker finishing (`_worker_run` returning),
and a comment arriving from the listener thread. -/
inductive Step : SysState → SysState → Prop where
  | cycleStep (st : SysState) :
      Step st { eng := (cycle st.eng).1,
                active := st.active + (if (cycle st.eng).2.isSome then 1 else 0) }
  | workerStep (st : SysState) (o : WorkerOracle) (line : String)
      (h : 0 < st.active) :
      Step st { eng := (worker_run st.eng o line).1, active := st.active - 1 }
  | enqueueStep (st : SysState) (ts : Nat) (line : String) :
      Step st { eng := add_comment st.eng ts line, active := st.active }

/-- Reflexive-transitive closure of `Step`. -/
inductive Reach (st : SysState) : SysState → Prop where
  | refl : Reach st st
  | tail (st' st'' : SysState) : Reach st st' → Step st' st'' → Reach st st''

/-!
## Embedding of `TikTokCommentFetcher` (`tiktok_monitor.py`)

Only the control surface that the claims touch is modelled: the `_running`
flag and the presence of the background loop/thread. The asyncio machinery
itself is abstracted into observable actions.
-/

/-- Observable actions of `TikTokCommentFetcher.stop`. -/
inductive FetchAct where
  | errorMsg : String → FetchAct
  | infoMsg : String → FetchAct
  | scheduleDisconnect : FetchAct
  | joinThread : FetchAct
deriving DecidableEq

/-- Control state of a `TikTokCommentFetcher`. -/
structure FetcherState where
  unique_id : String
  running : Bool
  hasLoop : Bool
  hasThread : Bool

/-- `TikTokCommentFetcher.stop`: when not running, report
`"未连接或已停止"` ("not connected or already stopped") and return with no
state change; otherwise schedule the graceful disconnect on the loop (when
present), join the thread (when present), clear `_running` and report the
stop. -/
def fetcher_stop (s : FetcherState) : FetcherState × List FetchAct :=
  if s.running = false then (s, [.errorMsg "未连接或已停止"])
  else
    let acts1 : List FetchAct := if s.hasLoop then [.scheduleDisconnect] else []
    let acts2 : List FetchAct := if s.hasThread then [.joinThread] else []
    ({ s with running := false }, acts1 ++ acts2 ++ [.infoMsg "已停止监听"])

/-!
## Concrete states used by counterexamples and witnesses
-/

/-- Scenario of the keyword-filter test: filter `{"hello"}`, queue
`["a: hi", "b: hello there"]` in enqueue order, engine enabled, idle. -/
def engC5 : EngineState :=
  { initManager with
    enabled := true
    keyword_mode := true
    keywords := ["hello"]
    comment_q := [(1, "a: hi"), (2, "b: hello there")] }

/-- Engine state after `engC5`'s dispatch worker has finished. -/
def engC5after : EngineState :=
  { (cycle engC5).1 with worker_active := false }

/-- Keyword filter `{"hello"}` with a single non-matching queued comment. -/
def engC6 : EngineState :=
  { initManager with
    enabled := true
    keyword_mode := true
    keywords := ["hello"]
    comment_q := [(1, "a: hi")] }

/-- An enabled engine in openai mode with the default (empty) credentials. -/
def engC8 : EngineState :=
  { initManager with
    mode := .openai
    enabled := true }

/-- An oracle whose network calls fail and whose emissions succeed. -/
def oracleNetDown : WorkerOracle :=
  { sdkAvailable := true
    netOpenai := .error "connection refused"
    netDify := .error "connection refused"
    netCoze := .error "connection refused"
    emitReplyExc := none
    emitErrorExc := none }

/-- Enabled engine whose keyword mode was switched on with only blank
keywords, holding three queued comments. -/
def engC10 : EngineState :=
  set_keyword_mode
    { initManager with
      enabled := true
      comment_q := [(1, "x: a"), (2, "y: b"), (3, "z: c")] }
    true (some ["", "   "])

/-- A full queue of 5000 identical entries. -/
def fullQ : List (Nat × String) := List.replicate 5000 ((0 : Nat), "u: x")

/-- Engine state whose queue is at capacity. -/
def engFull : EngineState := { initManager with comment_q := fullQ }

/-- A fetcher that is not running. -/
def fetcherIdle : FetcherState :=
  { unique_id := "host", running := false, hasLoop := false, hasThread := false }

/-- The folded effect of a sequence of `add_comment` calls. -/
def add_comments (s : EngineState) (ops : List (Nat × String)) : EngineState :=
  ops.foldl (fun st p => add_comment st p.1 p.2) s

/-!
## Helper lemmas
-/

/-- `add_comment` touches only the queue; the DispatchFlag is untouched. -/
theorem add_comment_worker_active (s : EngineState) (ts : Nat) (line : String) :
    (add_comment s ts line).worker_active = s.worker_active := by
  unfold add_comment
  split <;> rfl

/-- The state returned by `_worker_run` is the input state with the
DispatchFlag cleared, on every control path. -/
theorem worker_run_state (s : EngineState) (o : WorkerOracle) (line : String) :
    (worker_run s o line).1 = { s with worker_active := false } := by
  unfold worker_run
  rcases h : worker_try s o line with ⟨evs, exc⟩
  cases exc with
  | none => rfl
  | some e => cases o.emitErrorExc <;> rfl

/-- The reentrancy/enable guard of `cycle()`: disabled engine or busy
worker means an unchanged state and no dispatch. -/
theorem cycle_noop (s : EngineState)
    (h : s.enabled = false ∨ s.worker_active = true) : cycle s = (s, none) := by
  unfold cycle
  rcases h with h | h
  · simp [h]
  · by_cases he : s.enabled = false <;> simp [he, h]

/-- When `cycle()` spawns no worker, the DispatchFlag is unchanged. -/
theorem cycle_none_flag (s : EngineState) :
    (cycle s).2 = none → (cycle s).1.worker_active = s.worker_active := by
  unfold cycle
  split
  · intro _; rfl
  · split
    · intro _; rfl
    · split
      · intro _; rfl
      · intro h; simp at h

/-- When `cycle()` dispatches, it found the DispatchFlag clear and set it. -/
theorem cycle_some_flag (s : EngineState) (line : String) :
    (cycle s).2 = some line →
    s.worker_active = false ∧ (cycle s).1.worker_active = true := by
  unfold cycle
  split
  · intro h; simp at h
  · split
    · next hw => intro h; simp at h
    · next hw =>
      split
      · intro h; simp at h
      · intro _
        exact ⟨by simpa using hw, rfl⟩

/-- The part of the reversed queue that the drain loop never popped is a
suffix of its input. -/
theorem drainRev_drop (accept : String → Bool) (maxB : Nat) :
    ∀ (rq : List (Nat × String)) (items : List String),
      ∃ n, (drainRev accept maxB rq items).2 = rq.drop n := by
  intro rq
  induction rq with
  | nil => intro items; exact ⟨0, rfl⟩
  | cons x rest ih =>
    intro items
    rcases x with ⟨ts, line⟩
    unfold drainRev
    by_cases h : items.length < maxB
    · simp only [h, if_true]
      rcases ih (if accept line then items ++ [line] else items) with ⟨n, hn⟩
      exact ⟨n + 1, hn⟩
    · simp only [h, if_false]
      exact ⟨0, rfl⟩

/-- With a positive batch budget and a filter that rejects everything, the
drain loop pops the whole queue and collects nothing. -/
theorem drainRev_all_rejected (accept : String → Bool) (maxB : Nat)
    (hm : 0 < maxB) (hrej : ∀ l, accept l = false) :
    ∀ rq : List (Nat × String), drainRev accept maxB rq [] = ([], []) := by
  intro rq
  induction rq with
  | nil => rfl
  | cons x rest ih =>
    rcases x with ⟨ts, line⟩
    unfold drainRev
    simp [hm, hrej line, ih]

/-- A bounded push never grows the queue beyond the capacity. -/
theorem pushBounded_length_le (q : List (Nat × String)) (x : Nat × String)
    (h : q.length ≤ queueMaxlen) : (pushBounded q x).length ≤ queueMaxlen := by
  unfold pushBounded
  split
  · next h5 => simp only [List.length_drop]; omega
  · next h5 => omega

/-- A bounded push onto a full queue evicts exactly the oldest entry. -/
theorem pushBounded_full (q : List (Nat × String)) (x : Nat × String)
    (h : q.length = queueMaxlen) : pushBounded q x = q.tail ++ [x] := by
  unfold pushBounded
  have hlen : (q ++ [x]).length = queueMaxlen + 1 := by
    simp [h]
  rw [hlen, if_pos (by omega)]
  have h1 : queueMaxlen + 1 - queueMaxlen = 1 := by omega
  rw [h1]
  cases q with
  | nil => simp [queueMaxlen] at h
  | cons a as => simp

/-- One `add_comment` preserves the capacity bound. -/
theorem add_comment_length (s : EngineState) (ts : Nat) (line : String)
    (h : s.comment_q.length ≤ queueMaxlen) :
    (add_comment s ts line).comment_q.length ≤ queueMaxlen := by
  unfold add_comment
  split
  · exact h
  · exact pushBounded_length_le _ _ h

/-- Any sequence of `add_comment` calls preserves the capacity bound. -/
theorem add_comments_length (ops : List (Nat × String)) :
    ∀ s : EngineState, s.comment_q.length ≤ queueMaxlen →
      (add_comments s ops).comment_q.length ≤ queueMaxlen := by
  induction ops with
  | nil => intro s h; exact h
  | cons p rest ih =>
    intro s h
    exact ih _ (add_comment_length s p.1 p.2 h)

/-- One `Step` preserves the coupling between the DispatchFlag and the
number of live workers. -/
theorem step_preserves_inv (st st' : SysState) (h : Step st st')
    (hi : st.active = if st.eng.worker_active then 1 else 0) :
    st'.active = if st'.eng.worker_active then 1 else 0 := by
  cases h with
  | cycleStep =>
    rcases hd : (cycle st.eng).2 with _ | line
    · have hflag := cycle_none_flag st.eng hd
      simp [hd, hflag, hi]
    · have hflag := cycle_some_flag st.eng line hd
      simp [hd, hflag.1, hflag.2, hi]
  | workerStep o line hpos =>
    have hflag : st.eng.worker_active = true := by
      by_contra hf
      rw [Bool.not_eq_true] at hf
      rw [hf] at hi
      simp [hi] at hpos
    rw [hflag] at hi
    simp [worker_run_state, hi]
  | enqueueStep ts line =>
    simp [add_comment_worker_active, hi]

/-- The worker/flag coupling holds in every reachable state. -/
theorem reach_inv (st st' : SysState) (hr : Reach st st')
    (hi : st.active = if st.eng.worker_active then 1 else 0) :
    st'.active = if st'.eng.worker_active then 1 else 0 := by
  induction hr with
  | refl => exact hi
  | tail st1 st2 hr1 hstep ih => exact step_preserves_inv st1 st2 hstep ih

/-- Missing-key degradation of `_call_openai`: with an empty `api_key` the
config guard fails and the Echo fallback over the recovered user text is
returned, whatever the oracle would have answered. -/
theorem call_openai_missing_key (cfg : OpenAIConfig) (sdk : Bool)
    (net : Except String (Option String)) (sp up : String)
    (hk : cfg.api_key = "") :
    call_openai cfg sdk net sp up =
      .ok ("AI(Echo): " ++ strTrim (strReplace up "观众评论：" "")) := by
  unfold call_openai
  exact if_pos fun hall => hall.2.1 hk

/-!
## Claim theorems
-/

/-- C1: when `cycle()` runs while the engine is disabled or the DispatchFlag
is true, it returns immediately with the state (queue included) unchanged and
no worker spawned; and along every event sequence from a single caller
context (timer ticks, worker completions, comment arrivals) starting in a
consistent state, at most one dispatch worker is ever active. -/
theorem C1_single_flight :
    (∀ s : EngineState,
      s.enabled = false ∨ s.worker_active = true → cycle s = (s, none)) ∧
    (∀ st st' : SysState,
      st.active = (if st.eng.worker_active then 1 else 0) →
      Reach st st' → st'.active ≤ 1) := by
  constructor
  · exact cycle_noop
  · intro st st' hi hr
    have h := reach_inv st st' hr hi
    rw [h]
    split <;> omega

/-- C1 witness: the guard no-op at the freshly initialised (disabled) manager,
and the worker bound at the initial system state. -/
theorem C1_single_flight_witness :
    cycle initManager = (initManager, none) ∧
    ({ eng := initManager, active := 0 } : SysState).active ≤ 1 :=
  ⟨C1_single_flight.1 initManager (Or.inl rfl),
   C1_single_flight.2 { eng := initManager, active := 0 }
     { eng := initManager, active := 0 } (by simp [initManager]) Reach.refl⟩

/-- C2: `_worker_run` clears the DispatchFlag before it exits on every path —
successful emission, backend error returned as a value, and any unhandled
exception raised inside the worker body (including a failing emission). -/
theorem C2_worker_clears_flag (s : EngineState) (o : WorkerOracle)
    (line : String) : (worker_run s o line).1.worker_active = false := by
  rw [worker_run_state]

/-- C3: none of the three backend calls ever raises: for every configuration,
network outcome and input, each returns an ordinary string result (`.ok`). -/
theorem C3_backends_never_raise (ocfg : OpenAIConfig) (dcfg : DifyConfig)
    (ccfg : CozeConfig) (sdk : Bool) (netO : Except String (Option String))
    (netD netC : Except String JVal) (sp up text : String) :
    (∃ r, call_openai ocfg sdk netO sp up = .ok r) ∧
    (∃ r, call_dify_agent dcfg netD text = .ok r) ∧
    (∃ r, call_coze_agent ccfg netC text = .ok r) := by
  refine ⟨?_, ?_, ?_⟩
  · unfold call_openai
    split
    · exact ⟨_, rfl⟩
    · split <;> exact ⟨_, rfl⟩
  · unfold call_dify_agent
    split
    · exact ⟨_, rfl⟩
    · split <;> exact ⟨_, rfl⟩
  · unfold call_coze_agent
    split
    · exact ⟨_, rfl⟩
    · split <;> exact ⟨_, rfl⟩

/-- C4: the queue never exceeds 5000 entries over any sequence of
`add_comment` calls, and an accepted enqueue onto a full queue evicts exactly
the oldest entry while appending the new one. -/
theorem C4_bounded_queue :
    (∀ ops : List (Nat × String),
      (add_comments initManager ops).comment_q.length ≤ 5000) ∧
    (∀ (s : EngineState) (ts : Nat) (line : String),
      s.comment_q.length = 5000 → line ≠ "" → strStartsWith line "[" = false →
      (add_comment s ts line).comment_q = s.comment_q.tail ++ [(ts, line)]) := by
  constructor
  · intro ops
    exact add_comments_length ops initManager (by simp [initManager, queueMaxlen])
  · intro s ts line hfull hne hnb
    unfold add_comment
    rw [if_neg (by simp [hne, hnb])]
    exact pushBounded_full s.comment_q (ts, line) hfull

/-- C4 witness: a concrete full queue of 5000 entries; the accepted enqueue
drops the head and appends the new pair. -/
theorem C4_bounded_queue_witness :
    (add_comments initManager []).comment_q.length ≤ 5000 ∧
    engFull.comment_q.length = 5000 ∧
    (add_comment engFull 7 "v: hello").comment_q = fullQ.tail ++ [(7, "v: hello")] :=
  ⟨C4_bounded_queue.1 [],
   List.length_replicate 5000 _,
   C4_bounded_queue.2 engFull 7 "v: hello"
     (List.length_replicate 5000 _) (by decide) (by decide)⟩

/-- C5 counterexample: in the keyword scenario (`{"hello"}`, queue
`["a: hi", "b: hello there"]`, `max_batch = 1`) a single `cycle()` does
dispatch `"b: hello there"`, but `"a: hi"` is still in the queue afterwards —
the drain loop stops as soon as one entry is accepted, so the older entry is
never examined, contradicting the claimed permanent discard. -/
theorem C5_counterexample :
    (cycle engC5).2 = some "b: hello there" ∧
    (1, "a: hi") ∈ (cycle engC5).1.comment_q := by
  constructor <;> decide

/-- C5 amended: `cycle()` dispatches exactly `"b: hello there"` and leaves
`"a: hi"` as the sole queue entry; it is only the next cycle (after the
worker finishes) that drains and discards `"a: hi"`, without dispatching. -/
theorem C5_keyword_dispatch :
    (cycle engC5).2 = some "b: hello there" ∧
    (cycle engC5).1.comment_q = [(1, "a: hi")] ∧
    (cycle engC5).1.worker_active = true ∧
    (cycle engC5after).1.comment_q = [] ∧
    (cycle engC5after).2 = none := by
  refine ⟨?_, ?_, ?_, ?_, ?_⟩ <;> decide

/-- C6 counterexample: engine enabled and idle, keyword filter `{"hello"}`,
queue `["a: hi"]`. The cycle accepts nothing — no worker, no emission — yet
the queue is NOT the same as before the call: the drained rejected entry is
gone. This refutes the claimed absence of any state change. -/
theorem C6_counterexample :
    (cycle engC6).2 = none ∧
    (cycle engC6).1.worker_active = false ∧
    (cycle engC6).1.comment_q ≠ engC6.comment_q := by
  refine ⟨?_, ?_, ?_⟩ <;> decide

/-- C6 amended: when `cycle()` runs (enabled, idle) and zero drained entries
pass the filter, no worker is spawned and no emission occurs, every state
component other than the queue (DispatchFlag included) is unchanged, and the
queue is replaced by a prefix of its former contents — the drained (newest,
rejected) entries are permanently removed. -/
theorem C6_no_accept_frame (s : EngineState)
    (he : s.enabled = true) (hw : s.worker_active = false)
    (hempty : (cycleDrain s).1 = []) :
    (cycle s).2 = none ∧
    (cycle s).1 = { s with comment_q := (cycle s).1.comment_q } ∧
    ∃ n, (cycle s).1.comment_q = s.comment_q.take n := by
  have hc : cycle s = ({ s with comment_q := (cycleDrain s).2.reverse }, none) := by
    unfold cycle
    rw [if_neg (by simp [he]), if_neg (by simp [hw])]
    have h2 : cycleDrain s = ([], (cycleDrain s).2) := by
      rcases hd : cycleDrain s with ⟨a, b⟩
      rw [hd] at hempty
      simp only at hempty
      rw [hempty]
    rw [h2]
  refine ⟨by rw [hc], by rw [hc], ?_⟩
  rcases drainRev_drop (accept_line s) s.max_batch s.comment_q.reverse [] with ⟨m, hm⟩
  refine ⟨s.comment_q.length - m, ?_⟩
  rw [hc]
  show (cycleDrain s).2.reverse = _
  unfold cycleDrain
  rw [hm, ← List.rdrop_eq_reverse_drop_reverse]
  rfl

/-- C6 witness: the amended statement at the concrete rejected-drain state. -/
theorem C6_no_accept_frame_witness :
    engC6.enabled = true ∧ engC6.worker_active = false ∧
    (cycleDrain engC6).1 = [] ∧
    ((cycle engC6).2 = none ∧
     (cycle engC6).1 = { engC6 with comment_q := (cycle engC6).1.comment_q } ∧
     ∃ n, (cycle engC6).1.comment_q = engC6.comment_q.take n) :=
  ⟨rfl, rfl, by decide, C6_no_accept_frame engC6 rfl rfl (by decide)⟩

/-- C7: `add_comment` on an empty line or a line starting with `"["` leaves
the entire state — queue contents and length included — unchanged. -/
theorem C7_system_lines_rejected (s : EngineState) (ts : Nat) (line : String)
    (h : line = "" ∨ strStartsWith line "[" = true) :
    add_comment s ts line = s := by
  unfold add_comment
  rcases h with h | h <;> simp [h]

/-- C7 witness: a system-marker line at the fresh manager. -/
theorem C7_system_lines_rejected_witness :
    (("[系统] x" : String) = "" ∨ strStartsWith "[系统] x" "[" = true) ∧
    add_comment initManager 3 "[系统] x" = initManager :=
  ⟨Or.inr (by decide), C7_system_lines_rejected initManager 3 "[系统] x" (Or.inr (by decide))⟩

/-- C8: in openai mode with an empty `api_key`, dispatching the comment line
`"alice: nice stream"` generates `"AI(Echo): nice stream"`, whatever the
network oracle would have returned. -/
theorem C8_missing_key_echo (s : EngineState) (o : WorkerOracle)
    (hm : s.mode = AIMode.openai) (hk : s.openai_cfg.api_key = "") :
    generate_reply s o "alice: nice stream" = .ok "AI(Echo): nice stream" := by
  have h1 : generate_reply s o "alice: nice stream" =
      call_openai s.openai_cfg o.sdkAvailable o.netOpenai
        (build_prompts s (extract_comment_text "alice: nice stream")).1
        (build_prompts s (extract_comment_text "alice: nice stream")).2 := by
    unfold generate_reply
    rw [hm]
  rw [h1, call_openai_missing_key _ _ _ _ _ hk]
  have h2 : strTrim (strReplace
      (build_prompts s (extract_comment_text "alice: nice stream")).2
      "观众评论：" "") = "nice stream" := by
    show strTrim (strReplace ("观众评论：" ++ extract_comment_text "alice: nice stream")
      "观众评论：" "") = "nice stream"
    decide
  rw [h2]
  rfl

/-- C8 witness: the concrete openai-mode manager with default credentials. -/
theorem C8_missing_key_echo_witness :
    engC8.mode = AIMode.openai ∧ engC8.openai_cfg.api_key = "" ∧
    generate_reply engC8 oracleNetDown "alice: nice stream" =
      .ok "AI(Echo): nice stream" :=
  ⟨rfl, rfl, C8_missing_key_echo engC8 oracleNetDown rfl rfl⟩

/-- C9: `stop()` on a fetcher that is not running reports exactly the
"not connected or already stopped" error, changes no state, and schedules no
disconnect and no join. -/
theorem C9_stop_not_running (s : FetcherState) (h : s.running = false) :
    fetcher_stop s = (s, [.errorMsg "未连接或已停止"]) := by
  unfold fetcher_stop
  simp [h]

/-- C9 witness: the idle fetcher. -/
theorem C9_stop_not_running_witness :
    fetcherIdle.running = false ∧
    fetcher_stop fetcherIdle = (fetcherIdle, [.errorMsg "未连接或已停止"]) :=
  ⟨rfl, C9_stop_not_running fetcherIdle rfl⟩

/-- C10: enabling keyword mode with only blank keywords leaves an empty
keyword list, `_accept_line` then rejects every line, and any `cycle()` that
runs (enabled, idle, positive batch budget — the class invariant) drains and
permanently discards the whole queue without dispatching or emitting. -/
theorem C10_blank_keywords (s : EngineState) (ks : List String)
    (hblank : ∀ k ∈ ks, strTrim k = "")
    (he : s.enabled = true) (hw : s.worker_active = false)
    (hmb : 0 < s.max_batch) :
    (set_keyword_mode s true (some ks)).keywords = [] ∧
    (∀ line, accept_line (set_keyword_mode s true (some ks)) line = false) ∧
    cycle (set_keyword_mode s true (some ks)) =
      ({ set_keyword_mode s true (some ks) with comment_q := [] }, none) := by
  have hkw : (set_keyword_mode s true (some ks)).keywords = [] := by
    unfold set_keyword_mode
    simp only [List.filterMap_eq_nil_iff]
    intro k hk
    rw [if_pos (hblank k hk)]
  have hmode : (set_keyword_mode s true (some ks)).keyword_mode = true := rfl
  have hacc : ∀ line, accept_line (set_keyword_mode s true (some ks)) line = false := by
    intro line
    unfold accept_line
    rw [hmode, hkw]
    rfl
  refine ⟨hkw, hacc, ?_⟩
  have he' : (set_keyword_mode s true (some ks)).enabled = true := he
  have hw' : (set_keyword_mode s true (some ks)).worker_active = false := hw
  have hmb' : 0 < (set_keyword_mode s true (some ks)).max_batch := hmb
  unfold cycle
  rw [if_neg (by simp [he']), if_neg (by simp [hw'])]
  have hd : cycleDrain (set_keyword_mode s true (some ks)) = ([], []) := by
    unfold cycleDrain
    exact drainRev_all_rejected _ _ hmb' hacc _
  rw [hd]
  rfl

/-- C10 witness: the concrete engine whose keyword mode was enabled with
blank keywords only. -/
theorem C10_blank_keywords_witness :
    (∀ k ∈ ["", "   "], strTrim k = "") ∧
    (engC10.keywords = [] ∧
     (∀ line, accept_line engC10 line = false) ∧
     cycle engC10 = ({ engC10 with comment_q := [] }, none)) :=
  ⟨by decide,
   C10_blank_keywords
     { initManager with
       enabled := true
       comment_q := [(1, "x: a"), (2, "y: b"), (3, "z: c")] }
     ["", "   "] (by decide) rfl rfl (by decide)⟩

end CosVoice
